import Mathlib

/-!
Verification of `scripts/fetch_arxiv.py`: a shallow embedding of the script
in Lean 4 and proofs about it.

The script fetches arXiv metadata, normalizes it and writes a JSON file.
We embed its pure logic faithfully:
  * `pyStrip`, `nlToSpace` model Python `str.strip()` and `.replace(chr 10, ' ')`;
  * `Element` models an `xml.etree.ElementTree` element (tag, text, children),
    `findAll`/`findFirst` model `Element.findall`/`Element.find` on direct children;
  * `pyText` models the local helper `_text`;
  * `derivePdf` models the id-to-pdf link derivation in `fetch`;
  * `parseEntry`/`parsePapers` model the per-entry extraction loop of `fetch`;
  * `pyQuote` models `urllib.parse.quote` (UTF-8 percent-encoding, safe chars
    being ASCII letters, digits, `_ . - ~` and `/`), `fetchUrl` the URL built
    in `fetch`;
  * `Json` is a JSON value tree; `write_output` models the object that
    `write_output` serializes with `json.dump`;
  * `pyInt` models `int(...)` applied to a string;
  * `resolveQuery`/`resolveMax` model the configuration resolution in `main`;
  * `mainModel` models `main` after argument parsing: it takes the parsed
    arguments, the environment, the outcome of the fetch-or-parse step
    (success with a paper list, or an exception with its `str(e)` text),
    a clock giving the value of each successive `time.time()` call, and a
    flag telling whether the secondary convenience write raises; it returns
    either an uncaught exception or the ordered list of files written
    (path paired with JSON content).
-/

namespace FetchArxiv

/-- Python whitespace characters stripped by `str.strip()` (ASCII range). -/
def pyIsSpace (c : Char) : Bool :=
  c = ' ' || c = '\t' || c = '\n' || c = '\r' || c = '\x0b' || c = '\x0c'

/-- Model of Python `str.strip()`: drop whitespace from both ends. -/
def pyStrip (s : String) : String :=
  ⟨(((s.data.dropWhile pyIsSpace).reverse.dropWhile pyIsSpace).reverse)⟩

/-- Model of Python `.replace(chr 10, ' ')`: each newline becomes one space. -/
def nlToSpace (s : String) : String :=
  ⟨s.data.map (fun c => if c = '\n' then ' ' else c)⟩

/-- Does `pat` occur at the head of `s`? -/
def matchesAt : List Char → List Char → Bool
  | [], _ => true
  | _ :: _, [] => false
  | p :: ps, c :: cs => p = c && matchesAt ps cs

/-- Replace leftmost, non-overlapping occurrences of a nonempty `pat`,
with enough fuel (one unit per character of the input suffices, since every
step consumes at least one character). -/
def pyReplaceAux (pat repl : List Char) : Nat → List Char → List Char
  | _, [] => []
  | 0, s => s
  | Nat.succ fuel, c :: cs =>
    if matchesAt pat (c :: cs)
    then repl ++ pyReplaceAux pat repl fuel (cs.drop (pat.length - 1))
    else c :: pyReplaceAux pat repl fuel cs

/-- Model of Python `str.replace` for a nonempty pattern (the script only
replaces the nonempty pattern `/abs/`; an empty pattern is left unused and
modelled as the identity). -/
def pyReplace (s pat repl : String) : String :=
  if pat.data.isEmpty then s
  else ⟨pyReplaceAux pat.data repl.data s.data.length s.data⟩

/-- Model of Python `str.endswith`. -/
def pyEndsWith (s suffix : String) : Bool :=
  matchesAt suffix.data.reverse s.data.reverse

/-- Model of Python `str.startswith`. -/
def pyStartsWith (s start : String) : Bool :=
  matchesAt start.data s.data

/-- One XML element: tag (with namespace already joined in, as `ET` does),
text node (`None` modelled as `none`) and list of direct children. -/
structure Element where
  tag : String
  text : Option String
  children : List Element
deriving Repr

/-- The Atom namespace marker, as the script builds tags: `ATOM + localname`. -/
def ATOM : String := "\x7bhttp://www.w3.org/2005/Atom\x7d"

/-- Model of `ElementTree.Element.findall(tag)`: all direct children with the tag. -/
def findAll (e : Element) (tag : String) : List Element :=
  e.children.filter (fun c => c.tag = tag)

/-- Model of `ElementTree.Element.find(tag)`: first direct child with the tag. -/
def findFirst (e : Element) (tag : String) : Option Element :=
  (e.children.filter (fun c => c.tag = tag)).head?

/-- Model of the local `_text` helper in `fetch`: strip then replace newlines,
with empty string when the element is `None` or its text is `None` or empty. -/
def pyText (el : Option Element) : String :=
  match el with
  | none => ""
  | some e =>
    match e.text with
    | none => ""
    | some t => if t = "" then "" else nlToSpace (pyStrip t)

/-- Model of the pdf-link derivation in `fetch`:
`pdf = id_url.replace('/abs/', '/pdf/')`, then append `.pdf` when the result
is nonempty and does not already end in `.pdf`. -/
def derivePdf (idUrl : String) : String :=
  let pdf := pyReplace idUrl "/abs/" "/pdf/"
  if !pdf.data.isEmpty && !(pyEndsWith pdf ".pdf") then pdf ++ ".pdf" else pdf

/-- One normalized paper record, as the dict appended to `papers` in `fetch`.
`authors` keeps each `a.find(name).text` as the code does: the raw `text`
attribute, which is `None` for an empty name element. -/
structure Entry where
  id : String
  title : String
  summary : String
  authors : List (Option String)
  updated : String
  pdf : String
deriving Repr, DecidableEq

/-- Model of the per-entry extraction in `fetch`'s loop body. -/
def parseEntry (entry : Element) : Entry :=
  let idUrl := pyText (findFirst entry (ATOM ++ "id"))
  { id := idUrl
    title := pyText (findFirst entry (ATOM ++ "title"))
    summary := pyText (findFirst entry (ATOM ++ "summary"))
    authors := (findAll entry (ATOM ++ "author")).filterMap
      (fun a => (findFirst a (ATOM ++ "name")).map Element.text)
    updated := pyText (findFirst entry (ATOM ++ "updated"))
    pdf := derivePdf idUrl }

/-- Model of the whole parse phase of `fetch`: one `Entry` per entry node of
the root, in document order. -/
def parsePapers (root : Element) : List Entry :=
  (findAll root (ATOM ++ "entry")).map parseEntry

/-- Hex digit (uppercase), as `urllib.parse.quote` emits. -/
def hexDigit (n : Nat) : Char :=
  if n = 0 then '0' else if n = 1 then '1' else if n = 2 then '2'
  else if n = 3 then '3' else if n = 4 then '4' else if n = 5 then '5'
  else if n = 6 then '6' else if n = 7 then '7' else if n = 8 then '8'
  else if n = 9 then '9' else if n = 10 then 'A' else if n = 11 then 'B'
  else if n = 12 then 'C' else if n = 13 then 'D' else if n = 14 then 'E'
  else 'F'

/-- `%XX` escape of one byte. -/
def percentByte (b : Nat) : String :=
  ⟨['%', hexDigit (b / 16 % 16), hexDigit (b % 16)]⟩

/-- UTF-8 bytes of one code point, as Python encodes the query before quoting. -/
def utf8Bytes (c : Char) : List Nat :=
  let n := c.toNat
  if n < 128 then [n]
  else if n < 2048 then [192 + n / 64, 128 + n % 64]
  else if n < 65536 then [224 + n / 4096, 128 + n / 64 % 64, 128 + n % 64]
  else [240 + n / 262144, 128 + n / 4096 % 64, 128 + n / 64 % 64, 128 + n % 64]

/-- Characters `urllib.parse.quote` leaves unescaped with its default `safe`:
ASCII letters, digits, `_ . - ~` and `/`. -/
def quoteSafe (c : Char) : Bool :=
  (c ≥ 'A' && c ≤ 'Z') || (c ≥ 'a' && c ≤ 'z') || (c ≥ '0' && c ≤ '9') ||
  c = '_' || c = '.' || c = '-' || c = '~' || c = '/'

/-- Quote one character: itself when safe, else the `%XX` escapes of its bytes. -/
def quoteChar (c : Char) : String :=
  if quoteSafe c then c.toString
  else String.join ((utf8Bytes c).map percentByte)

/-- Model of `urllib.parse.quote(query)` with the default `safe` set. -/
def pyQuote (s : String) : String :=
  String.join (s.data.map quoteChar)

/-- Model of the URL built in `fetch`. -/
def fetchUrl (query : String) (maxResults : Int) : String :=
  "https://export.arxiv.org/api/query?search_query=" ++ pyQuote query ++
    "&start=0&max_results=" ++ toString maxResults ++
    "&sortBy=lastUpdatedDate&sortOrder=descending"

/-- JSON value trees, the codomain of `json.dump`'s input in this script. -/
inductive Json where
  | null : Json
  | str : String → Json
  | num : Int → Json
  | arr : List Json → Json
  | obj : List (String × Json) → Json
deriving Repr

/-- Field lookup in a JSON object. -/
def Json.lookup (j : Json) (k : String) : Option Json :=
  match j with
  | .obj kvs => List.lookup k kvs
  | _ => none

/-- JSON value of one author-list element: `None` serializes as `null`. -/
def authorJson : Option String → Json
  | none => .null
  | some s => .str s

/-- JSON value of one paper dict, with the key order used in `fetch`. -/
def entryJson (e : Entry) : Json :=
  .obj [("id", .str e.id), ("title", .str e.title), ("summary", .str e.summary),
        ("authors", .arr (e.authors.map authorJson)),
        ("updated", .str e.updated), ("pdf", .str e.pdf)]

/-- Model of `write_output`: the object `json.dump` serializes, with
`fetched_at` the value of `int(time.time())` at this call. -/
def write_output (query : String) (fetchedAt : Int) (papers : List Entry) : Json :=
  .obj [("query", .str query), ("fetched_at", .num fetchedAt),
        ("papers", .arr (papers.map entryJson))]

/-- The fallback object built in `main`'s `except` clause, in its key order. -/
def fallbackJson (query : String) (fetchedAt : Int) (err : String) : Json :=
  .obj [("query", .str query), ("fetched_at", .num fetchedAt),
        ("error", .str err), ("papers", .arr [])]

/-- Digits of a decimal literal to a number; `none` when empty or non-digit. -/
def digitsToNat : List Char → Option Nat
  | [] => none
  | cs => if cs.all Char.isDigit
          then some (cs.foldl (fun acc c => acc * 10 + (c.toNat - 48)) 0)
          else none

/-- Model of Python `int(s)` on a string: strip whitespace, optional sign,
then a nonempty digit run; raises (`none`) otherwise. -/
def pyInt (s : String) : Option Int :=
  match (pyStrip s).data with
  | '+' :: rest => (digitsToNat rest).map Int.ofNat
  | '-' :: rest => (digitsToNat rest).map (fun n => -(n : Int))
  | cs => (digitsToNat cs).map Int.ofNat

/-- Python truthy string fallback `o or d`: `d` when `o` is `None` or empty. -/
def orDefault (o : Option String) (d : String) : String :=
  match o with
  | none => d
  | some s => if s = "" then d else s

/-- Model of `query = args.query or os.environ.get('ARXIV_QUERY') or
'all:machine learning'`. -/
def resolveQuery (argQuery envQuery : Option String) : String :=
  orDefault argQuery (orDefault envQuery "all:machine learning")

/-- Model of `max_results = int(os.environ.get('MAX_RESULTS', args.max))`:
`args.max` is already an `int` (argparse `type=int`), so absent env gives it
back; a present env value goes through `int(...)`, which can raise (`none`). -/
def resolveMax (envMax : Option String) (argMax : Int) : Option Int :=
  match envMax with
  | none => some argMax
  | some v => pyInt v

/-- Parsed command-line arguments of `main` (after argparse). -/
structure Args where
  query : Option String
  max : Int
  out : String
deriving Repr

/-- The two environment variables `main` reads. -/
structure Env where
  arxivQuery : Option String
  maxResults : Option String
deriving Repr

/-- Model of `main` after argument parsing. `fetchOutcome` is what the
fetch-or-parse step does for the resolved query: a paper list, or an
exception carrying its `str(e)` text. `clock k` is the value of the k-th
`int(time.time())` call. `secondaryFails` tells whether the convenience
write of `arxiv_data.json` raises. The result is `.error` for an uncaught
exception, else the ordered list of files written (path, JSON content). -/
def mainModel (args : Args) (env : Env)
    (fetchOutcome : Except String (List Entry))
    (clock : Nat → Int) (secondaryFails : Bool) :
    Except String (List (String × Json)) :=
  let query := resolveQuery args.query env.arxivQuery
  match resolveMax env.maxResults args.max with
  | none =>
    match env.maxResults with
    | some v => .error ("invalid literal for int with base 10: " ++ v)
    | none => .error "invalid literal for int with base 10"
  | some _ =>
    match fetchOutcome with
    | .error e => .ok [(args.out, fallbackJson query (clock 0) e)]
    | .ok papers =>
      let primary := (args.out, write_output query (clock 0) papers)
      if pyStartsWith args.out "docs/" then
        if secondaryFails then .ok [primary]
        else .ok [primary, ("arxiv_data.json", write_output query (clock 1) papers)]
      else .ok [primary]

/-- Decoder for the author list of a serialized paper. -/
def decodeAuthors : List Json → Option (List (Option String))
  | [] => some []
  | .null :: rest => (decodeAuthors rest).map (fun l => none :: l)
  | .str s :: rest => (decodeAuthors rest).map (fun l => some s :: l)
  | _ => none

/-- Decoder for one serialized paper object. -/
def decodeEntry : Json → Option Entry
  | .obj [("id", .str i), ("title", .str t), ("summary", .str s),
          ("authors", .arr as), ("updated", .str u), ("pdf", .str p)] =>
    (decodeAuthors as).map (fun al =>
      { id := i, title := t, summary := s, authors := al, updated := u, pdf := p })
  | _ => none

/-- Decoder for a list of serialized papers. -/
def decodeEntries : List Json → Option (List Entry)
  | [] => some []
  | j :: rest =>
    match decodeEntry j with
    | none => none
    | some e => (decodeEntries rest).map (fun l => e :: l)

/-- Decoder for a whole serialized `ResultSet`: re-parsing the written file. -/
def decodeResultSet : Json → Option (String × Int × List Entry)
  | .obj [("query", .str q), ("fetched_at", .num t), ("papers", .arr ps)] =>
    (decodeEntries ps).map (fun l => (q, t, l))
  | _ => none

end FetchArxiv

namespace FetchArxiv

/-- The failing input for author extraction: a well-formed feed with one
entry whose single author has a `name` element carrying no text (as parsing
`<name/>` yields `text = None` in ElementTree). -/
def bugFeed : Element :=
  ⟨ATOM ++ "feed", none,
    [⟨ATOM ++ "entry", none,
      [⟨ATOM ++ "author", none, [⟨ATOM ++ "name", none, []⟩]⟩]⟩]⟩

theorem strData_append (s t : String) : (s ++ t).data = s.data ++ t.data :=
  String.data_append s t

/-- Claim C5: identifier-to-link derivation: the `/abs/`-to-`/pdf/` substitution maps
`https://site/abs/1234.5678` to `https://site/pdf/1234.5678.pdf`; a result of the
substitution already ending in `.pdf` is not suffixed again; and an absent
(empty) identifier derives the empty link. -/
theorem derivePdf_spec :
    derivePdf "https://site/abs/1234.5678" = "https://site/pdf/1234.5678.pdf" ∧
    (∀ idUrl : String, pyEndsWith (pyReplace idUrl "/abs/" "/pdf/") ".pdf" = true →
      derivePdf idUrl = pyReplace idUrl "/abs/" "/pdf/") ∧
    derivePdf "" = "" := by
  refine ⟨by decide, ?_, by decide⟩
  intro idUrl h
  unfold derivePdf
  simp [h]

/-- Claim C6: for every query and every max-results value, the built URL splits as
fixed text around the percent-encoded query, contains `start=0`, the exact
max-results value after `max_results=`, and ends in the fixed sort parameters. -/
theorem fetchUrl_spec (q : String) (m : Int) (_h : 0 ≤ m) :
    (∃ a b, (fetchUrl q m).data = a ++ ((pyQuote q).data ++ b)) ∧
    (∃ a b, (fetchUrl q m).data = a ++ (("start=0" : String).data ++ b)) ∧
    (∃ a b, (fetchUrl q m).data =
      a ++ (("max_results=" : String).data ++ ((toString m).data ++ b))) ∧
    (∃ a, (fetchUrl q m).data =
      a ++ ("sortBy=lastUpdatedDate&sortOrder=descending" : String).data) := by
  have h1 : ("&start=0&max_results=" : String).data
      = ("&" : String).data ++ (("start=0" : String).data ++ ("&max_results=" : String).data) := by
    decide
  have h2 : ("&start=0&max_results=" : String).data
      = ("&start=0&" : String).data ++ ("max_results=" : String).data := by decide
  have h3 : ("&sortBy=lastUpdatedDate&sortOrder=descending" : String).data
      = ("&" : String).data ++ ("sortBy=lastUpdatedDate&sortOrder=descending" : String).data := by
    decide
  refine ⟨⟨("https://export.arxiv.org/api/query?search_query=" : String).data,
      ("&start=0&max_results=" : String).data ++ ((toString m).data ++
        ("&sortBy=lastUpdatedDate&sortOrder=descending" : String).data), ?_⟩,
    ⟨("https://export.arxiv.org/api/query?search_query=" : String).data ++
        ((pyQuote q).data ++ ("&" : String).data),
      ("&max_results=" : String).data ++ ((toString m).data ++
        ("&sortBy=lastUpdatedDate&sortOrder=descending" : String).data), ?_⟩,
    ⟨("https://export.arxiv.org/api/query?search_query=" : String).data ++
        ((pyQuote q).data ++ ("&start=0&" : String).data),
      ("&sortBy=lastUpdatedDate&sortOrder=descending" : String).data, ?_⟩,
    ⟨("https://export.arxiv.org/api/query?search_query=" : String).data ++
        ((pyQuote q).data ++ (("&start=0&max_results=" : String).data ++
          ((toString m).data ++ ("&" : String).data))),
      ?_⟩⟩
  · simp [fetchUrl, strData_append]
  · simp only [fetchUrl, strData_append, h1]
    simp
  · simp only [fetchUrl, strData_append, h2]
    simp
  · simp only [fetchUrl, strData_append, h3]
    simp

theorem fetchUrl_spec_witness :
    ∃ a b, (fetchUrl "a b" 20).data = a ++ ((pyQuote "a b").data ++ b) :=
  (fetchUrl_spec "a b" 20 (by decide)).1

/-- Claim C10: truthiness-based query resolution: an explicitly empty `--query`
argument behaves as an absent one, an empty environment query falls to the
built-in default, and the resolved query is never the empty string. -/
theorem resolveQuery_truthiness_spec :
    (∀ envQ : Option String, resolveQuery (some "") envQ = resolveQuery none envQ) ∧
    (resolveQuery none (some "") = "all:machine learning") ∧
    (resolveQuery (some "") none = "all:machine learning") ∧
    (∀ argQ envQ : Option String, resolveQuery argQ envQ ≠ "") := by
  refine ⟨fun envQ => rfl, rfl, rfl, ?_⟩
  intro argQ envQ
  cases argQ with
  | none =>
    cases envQ with
    | none => simp [resolveQuery, orDefault]
    | some e =>
      by_cases he : e = "" <;> simp [resolveQuery, orDefault, he]
  | some a =>
    by_cases ha : a = ""
    · cases envQ with
      | none => simp [resolveQuery, orDefault, ha]
      | some e => by_cases he : e = "" <;> simp [resolveQuery, orDefault, ha, he]
    · simp [resolveQuery, orDefault, ha]

/-- Claim C4: configuration resolution in `main`: a non-empty explicit query argument
wins, else a non-empty `ARXIV_QUERY`, else the built-in default; a present
`MAX_RESULTS` value that parses as an integer overrides the `--max` argument
entirely, and an absent one leaves the `--max` argument in force. -/
theorem config_resolution_spec (aq eq0 ev : Option String) (am : Int) :
    (∀ s, aq = some s → s ≠ "" → resolveQuery aq eq0 = s) ∧
    (aq = none → ∀ e, eq0 = some e → e ≠ "" → resolveQuery aq eq0 = e) ∧
    (aq = none → eq0 = none → resolveQuery aq eq0 = "all:machine learning") ∧
    (∀ v n, ev = some v → pyInt v = some n → resolveMax ev am = some n) ∧
    (ev = none → resolveMax ev am = some am) := by
  refine ⟨?_, ?_, ?_, ?_, ?_⟩
  · intro s hs hne; subst hs; simp [resolveQuery, orDefault, hne]
  · intro ha e he hne; subst ha; subst he; simp [resolveQuery, orDefault, hne]
  · intro ha he; subst ha; subst he; rfl
  · intro v n hv hp; subst hv; simp [resolveMax, hp]
  · intro hv; subst hv; rfl

end FetchArxiv

namespace FetchArxiv

theorem nlToSpace_data (s : String) :
    (nlToSpace s).data = s.data.map (fun c => if c = '\n' then ' ' else c) := rfl

theorem pyStrip_data (s : String) :
    (pyStrip s).data
      = ((s.data.dropWhile pyIsSpace).reverse.dropWhile pyIsSpace).reverse := rfl

theorem pyStrip_head_not_space (s : String) (c : Char)
    (h : (pyStrip s).data.head? = some c) : pyIsSpace c = false := by
  rw [pyStrip_data, List.head?_reverse] at h
  obtain ⟨t, ht⟩ :=
    List.dropWhile_suffix (l := (s.data.dropWhile pyIsSpace).reverse) pyIsSpace
  have hA : (s.data.dropWhile pyIsSpace).reverse.getLast? = some c := by
    rw [← ht, List.getLast?_append, h]; rfl
  rw [List.getLast?_reverse] at hA
  have hd := List.head?_dropWhile_not pyIsSpace s.data
  rw [hA] at hd
  exact hd

theorem pyStrip_getLast_not_space (s : String) (c : Char)
    (h : (pyStrip s).data.getLast? = some c) : pyIsSpace c = false := by
  rw [pyStrip_data, List.getLast?_reverse] at h
  have hd := List.head?_dropWhile_not pyIsSpace (s.data.dropWhile pyIsSpace).reverse
  rw [h] at hd
  exact hd

theorem cleaned_text_props (t : String) :
    ('\n' ∉ (nlToSpace (pyStrip t)).data) ∧
    (∀ c, (nlToSpace (pyStrip t)).data.head? = some c → pyIsSpace c = false) ∧
    (∀ c, (nlToSpace (pyStrip t)).data.getLast? = some c → pyIsSpace c = false) := by
  refine ⟨?_, ?_, ?_⟩
  · intro h
    rw [nlToSpace_data, List.mem_map] at h
    obtain ⟨a, _, hfa⟩ := h
    by_cases ha : a = '\n'
    · rw [if_pos ha] at hfa; exact absurd hfa (by decide)
    · rw [if_neg ha] at hfa; exact ha hfa
  · intro c h
    rw [nlToSpace_data, List.head?_map] at h
    cases hh : (pyStrip t).data.head? with
    | none => rw [hh] at h; exact absurd h (by simp)
    | some c0 =>
      rw [hh] at h
      have hc0 := pyStrip_head_not_space t c0 hh
      have hne : c0 ≠ '\n' := by
        intro he; rw [he] at hc0; exact absurd hc0 (by decide)
      have : c = c0 := by
        simp only [Option.map_some'] at h
        rw [if_neg hne] at h
        exact (Option.some.injEq _ _ ▸ h : c0 = c).symm
      rw [this]; exact hc0
  · intro c h
    rw [nlToSpace_data, List.getLast?_map] at h
    cases hh : (pyStrip t).data.getLast? with
    | none => rw [hh] at h; exact absurd h (by simp)
    | some c0 =>
      rw [hh] at h
      have hc0 := pyStrip_getLast_not_space t c0 hh
      have hne : c0 ≠ '\n' := by
        intro he; rw [he] at hc0; exact absurd hc0 (by decide)
      have : c = c0 := by
        simp only [Option.map_some'] at h
        rw [if_neg hne] at h
        exact (Option.some.injEq _ _ ▸ h : c0 = c).symm
      rw [this]; exact hc0

/-- Claim C7: every extracted text field goes through the cleanup that trims
leading and trailing whitespace and turns each internal newline into a single
space; a missing node, a node with no text, or a node with empty text yields
the empty string, never a null. -/
theorem text_cleanup_spec :
    (pyText none = "") ∧
    (∀ e : Element, e.text = none → pyText (some e) = "") ∧
    (∀ e : Element, e.text = some "" → pyText (some e) = "") ∧
    (∀ el : Option Element,
      ('\n' ∉ (pyText el).data) ∧
      (∀ c, (pyText el).data.head? = some c → pyIsSpace c = false) ∧
      (∀ c, (pyText el).data.getLast? = some c → pyIsSpace c = false)) ∧
    (∀ e : Element, ∀ t, e.text = some t → t ≠ "" →
      (pyText (some e)).data.length = (pyStrip t).data.length ∧
      (∀ i : Nat, (pyText (some e)).data[i]? =
        ((pyStrip t).data[i]?).map (fun c => if c = '\n' then ' ' else c))) := by
  have hval : ∀ (e : Element) (t : String), e.text = some t → t ≠ "" →
      pyText (some e) = nlToSpace (pyStrip t) := by
    intro e t ht hne
    simp [pyText, ht, hne]
  refine ⟨rfl, ?_, ?_, ?_, ?_⟩
  · intro e ht; simp [pyText, ht]
  · intro e ht; simp [pyText, ht]
  · intro el
    match el with
    | none => exact ⟨by simp [pyText], by simp [pyText], by simp [pyText]⟩
    | some e =>
      match he : e.text with
      | none =>
        refine ⟨?_, ?_, ?_⟩ <;> simp [pyText, he]
      | some t =>
        by_cases hne : t = ""
        · refine ⟨?_, ?_, ?_⟩ <;> simp [pyText, he, hne]
        · rw [hval e t he hne]
          exact cleaned_text_props t
  · intro e t ht hne
    rw [hval e t ht hne, nlToSpace_data]
    exact ⟨List.length_map _ _, fun i => List.getElem?_map _ _ i⟩

end FetchArxiv

namespace FetchArxiv

/-- Claim C1: evaluation of the parser at the failing input
`<feed><entry><author><name/></author></entry></feed>`: the one entry is
produced with empty-string fields, but its author list holds a null (`none`),
not a string, because the code reads the raw `text` of the name element
instead of passing it through `_text`. -/
theorem parsePapers_null_author_eval :
    parsePapers bugFeed =
      [{ id := "", title := "", summary := "", authors := [none],
         updated := "", pdf := "" }] ∧
    (parsePapers bugFeed).length = (findAll bugFeed (ATOM ++ "entry")).length ∧
    ∃ e, e ∈ parsePapers bugFeed ∧ none ∈ e.authors := by
  refine ⟨by decide, by decide,
    ⟨⟨"", "", "", [none], "", ""⟩, by decide, by decide⟩⟩

/-- Claim C9: serializing a ResultSet with `write_output` and re-parsing the result
reproduces the query, the paper count and every field of every paper. -/
theorem write_output_roundtrip (q : String) (t : Int) (ps : List Entry) :
    decodeResultSet (write_output q t ps) = some (q, t, ps) := by
  have hAuth : ∀ al : List (Option String),
      decodeAuthors (al.map authorJson) = some al := by
    intro al
    induction al with
    | nil => rfl
    | cons a rest ih => cases a <;> simp [authorJson, decodeAuthors, ih]
  have hEntry : ∀ e : Entry, decodeEntry (entryJson e) = some e := by
    intro e
    show (decodeAuthors (e.authors.map authorJson)).map _ = some e
    rw [hAuth]
    rfl
  have hEntries : ∀ l : List Entry, decodeEntries (l.map entryJson) = some l := by
    intro l
    induction l with
    | nil => rfl
    | cons e rest ih => simp [decodeEntries, hEntry, ih]
  show (decodeEntries (ps.map entryJson)).map _ = some (q, t, ps)
  rw [hEntries]
  rfl

/-- Claim C2, amended: on a fetch-or-parse exception, `main` writes exactly one
file, at the original destination path, holding a fallback object with keys
`query`, `fetched_at`, `error`, `papers`, where `papers` is empty and `error`
is exactly the exception's textual description — hence non-empty whenever
that description is non-empty — and `main` does not re-raise. -/
theorem fallback_write_spec (args : Args) (env : Env) (msg : String)
    (clock : Nat → Int) (sf : Bool) (m : Int)
    (hm : resolveMax env.maxResults args.max = some m) :
    mainModel args env (.error msg) clock sf =
      .ok [(args.out,
        fallbackJson (resolveQuery args.query env.arxivQuery) (clock 0) msg)] ∧
    (fallbackJson (resolveQuery args.query env.arxivQuery) (clock 0) msg).lookup
      "error" = some (.str msg) ∧
    (fallbackJson (resolveQuery args.query env.arxivQuery) (clock 0) msg).lookup
      "papers" = some (.arr []) ∧
    (fallbackJson (resolveQuery args.query env.arxivQuery) (clock 0) msg).lookup
      "query" = some (.str (resolveQuery args.query env.arxivQuery)) ∧
    (msg ≠ "" →
      (fallbackJson (resolveQuery args.query env.arxivQuery) (clock 0) msg).lookup
        "error" ≠ some (.str "")) := by
  refine ⟨?_, rfl, rfl, rfl, ?_⟩
  · unfold mainModel
    rw [hm]
  · intro hne hc
    have h1 : some (Json.str msg) = some (Json.str "") := hc
    injection h1 with h2
    injection h2 with h3
    exact hne h3

/-- Counterexample for C2: an exception whose textual description is the empty
string (as `str(e)` of a bare `MemoryError` is) is written verbatim, so the
`error` value in the fallback file is the empty string, not a non-empty one. -/
theorem fallback_empty_error_cex :
    mainModel ⟨none, 20, "docs/arxiv_data.json"⟩ ⟨none, none⟩ (.error "")
      (fun _ => 0) false
      = .ok [("docs/arxiv_data.json", fallbackJson "all:machine learning" 0 "")] ∧
    (fallbackJson "all:machine learning" 0 "").lookup "error" = some (.str "") :=
  ⟨rfl, rfl⟩

theorem fallback_write_spec_witness :
    mainModel ⟨none, 20, "docs/arxiv_data.json"⟩ ⟨none, none⟩ (.error "timed out")
      (fun _ => 7) false
      = .ok [("docs/arxiv_data.json",
          fallbackJson "all:machine learning" 7 "timed out")] :=
  (fallback_write_spec ⟨none, 20, "docs/arxiv_data.json"⟩ ⟨none, none⟩ "timed out"
    (fun _ => 7) false 20 rfl).1

/-- Claim C3, amended: on a successful run a second file at the fixed root path
`arxiv_data.json` is written exactly when the destination starts with `docs/`
and the secondary write does not itself fail; the second file agrees with the
first in query and papers, and is byte-identical whenever the clock does not
advance between the two `time.time()` samples; a failing secondary write
never affects the primary write. -/
theorem secondary_copy_spec (args : Args) (env : Env) (papers : List Entry)
    (clock : Nat → Int) (sf : Bool) (m : Int)
    (hm : resolveMax env.maxResults args.max = some m) :
    (pyStartsWith args.out "docs/" = true → sf = false →
      mainModel args env (.ok papers) clock sf =
        .ok [(args.out,
              write_output (resolveQuery args.query env.arxivQuery) (clock 0) papers),
             ("arxiv_data.json",
              write_output (resolveQuery args.query env.arxivQuery) (clock 1) papers)]) ∧
    (pyStartsWith args.out "docs/" = false →
      mainModel args env (.ok papers) clock sf =
        .ok [(args.out,
              write_output (resolveQuery args.query env.arxivQuery) (clock 0) papers)]) ∧
    (sf = true →
      mainModel args env (.ok papers) clock sf =
        .ok [(args.out,
              write_output (resolveQuery args.query env.arxivQuery) (clock 0) papers)]) ∧
    (∃ rest, mainModel args env (.ok papers) clock sf =
      .ok ((args.out,
            write_output (resolveQuery args.query env.arxivQuery) (clock 0) papers)
           :: rest)) ∧
    (clock 1 = clock 0 →
      write_output (resolveQuery args.query env.arxivQuery) (clock 1) papers =
        write_output (resolveQuery args.query env.arxivQuery) (clock 0) papers) := by
  have key : mainModel args env (.ok papers) clock sf =
      (if pyStartsWith args.out "docs/" then
        (if sf then
          .ok [(args.out,
                write_output (resolveQuery args.query env.arxivQuery) (clock 0) papers)]
         else
          .ok [(args.out,
                write_output (resolveQuery args.query env.arxivQuery) (clock 0) papers),
               ("arxiv_data.json",
                write_output (resolveQuery args.query env.arxivQuery) (clock 1) papers)])
       else
        .ok [(args.out,
              write_output (resolveQuery args.query env.arxivQuery) (clock 0) papers)]) := by
    unfold mainModel
    rw [hm]
  refine ⟨?_, ?_, ?_, ?_, ?_⟩
  · intro h1 h2
    subst h2
    rw [key, if_pos h1, if_neg (by decide)]
  · intro h1
    rw [key, if_neg (by simp [h1])]
  · intro h1
    subst h1
    cases hs : pyStartsWith args.out "docs/" with
    | false => rw [key, if_neg (by simp [hs])]
    | true => rw [key, if_pos hs, if_pos rfl]
  · cases hs : pyStartsWith args.out "docs/" with
    | false => exact ⟨[], by rw [key, if_neg (by simp [hs])]⟩
    | true =>
      cases sf with
      | false =>
        exact ⟨[("arxiv_data.json",
          write_output (resolveQuery args.query env.arxivQuery) (clock 1) papers)],
          by rw [key, if_pos hs, if_neg (by decide)]⟩
      | true => exact ⟨[], by rw [key, if_pos hs, if_pos rfl]⟩
  · intro h; rw [h]

/-- Counterexample for C3: with the clock advancing one second between the two
writes, both files are produced but their contents differ in `fetched_at`,
so the second file is not identical to the first. -/
theorem secondary_copy_timestamp_cex :
    mainModel ⟨none, 20, "docs/arxiv_data.json"⟩ ⟨none, none⟩ (.ok [])
      (fun k => Int.ofNat k) false
      = .ok [("docs/arxiv_data.json", write_output "all:machine learning" 0 []),
             ("arxiv_data.json", write_output "all:machine learning" 1 [])] ∧
    (write_output "all:machine learning" 0 []).lookup "fetched_at"
      = some (.num 0) ∧
    (write_output "all:machine learning" 1 []).lookup "fetched_at"
      = some (.num 1) ∧
    write_output "all:machine learning" 0 [] ≠
      write_output "all:machine learning" 1 [] := by
  refine ⟨rfl, rfl, rfl, ?_⟩
  intro h
  have h0 : (write_output "all:machine learning" 0 []).lookup "fetched_at"
      = (write_output "all:machine learning" 1 []).lookup "fetched_at" := by rw [h]
  have h1 : some (Json.num 0) = some (Json.num 1) := h0
  injection h1 with h2
  injection h2 with h3
  exact absurd h3 (by decide)

theorem secondary_copy_spec_witness :
    mainModel ⟨none, 20, "docs/arxiv_data.json"⟩ ⟨none, none⟩ (.ok [])
      (fun _ => 9) false
      = .ok [("docs/arxiv_data.json", write_output "all:machine learning" 9 []),
             ("arxiv_data.json", write_output "all:machine learning" 9 [])] :=
  (secondary_copy_spec ⟨none, 20, "docs/arxiv_data.json"⟩ ⟨none, none⟩ []
    (fun _ => 9) false 20 rfl).1 rfl rfl

/-- Claim C8, amended: whenever `MAX_RESULTS`, if present, parses as an integer,
`main` completes normally — it writes files and returns, raising no uncaught
exception — whether the fetch-or-parse step succeeds or fails. -/
theorem main_completes_spec (args : Args) (env : Env)
    (outcome : Except String (List Entry)) (clock : Nat → Int) (sf : Bool)
    (hm : ∃ m, resolveMax env.maxResults args.max = some m) :
    ∃ files, mainModel args env outcome clock sf = .ok files := by
  obtain ⟨m, hm⟩ := hm
  unfold mainModel
  rw [hm]
  cases outcome with
  | error e => exact ⟨_, rfl⟩
  | ok papers =>
    cases hs : pyStartsWith args.out "docs/" with
    | false =>
      exact ⟨[(args.out,
        write_output (resolveQuery args.query env.arxivQuery) (clock 0) papers)],
        by simp [hs]⟩
    | true =>
      cases sf with
      | false =>
        exact ⟨[(args.out,
            write_output (resolveQuery args.query env.arxivQuery) (clock 0) papers),
          ("arxiv_data.json",
            write_output (resolveQuery args.query env.arxivQuery) (clock 1) papers)],
          by simp [hs]⟩
      | true =>
        exact ⟨[(args.out,
          write_output (resolveQuery args.query env.arxivQuery) (clock 0) papers)],
          by simp [hs]⟩

/-- Counterexample for C8: with the environment variable `MAX_RESULTS` set to the
non-integer text `abc`, `int(...)` — evaluated before the `try` block — raises
an uncaught exception: `main` completes abnormally even though the fetch
itself would have succeeded. -/
theorem main_uncaught_exception_cex :
    mainModel ⟨none, 20, "docs/arxiv_data.json"⟩ ⟨none, some "abc"⟩ (.ok [])
      (fun _ => 0) false
      = .error "invalid literal for int with base 10: abc" := rfl

theorem main_completes_spec_witness :
    ∃ files, mainModel ⟨none, 20, "docs/arxiv_data.json"⟩ ⟨none, some "30"⟩
      (.error "boom") (fun _ => 0) false = .ok files :=
  main_completes_spec ⟨none, 20, "docs/arxiv_data.json"⟩ ⟨none, some "30"⟩
    (.error "boom") (fun _ => 0) false ⟨30, by decide⟩

end FetchArxiv
